import Mathlib

/-!
Shallow embedding of `internal/btf/format.go`: the Go type-declaration
formatter (`GoFormatter`) that renders BTF type graphs as Go type
declarations.  Machine integers of the Go code (`uint32` offsets and
sizes) are modelled as `Nat` reduced modulo `2^32` exactly where the Go
code performs 32-bit arithmetic.  Go's `(string, error)` results become
the `Res` type below; a Go runtime panic is a distinct `Res.panicked`
outcome.  Recursive functions carry an explicit fuel argument that every
recursive call decrements; fuel exhaustion is a `panicked` outcome that
is unreachable for the fuel budgets used at top level, because the
code's own depth guard (`maxTypeDepth`) bounds the real recursion.
-/

set_option linter.unusedVariables false

/-- `2^32`, the modulus of Go `uint32` arithmetic. -/
def U32 : Nat := 4294967296

/-- Reduce to the `uint32` range. -/
def u32 (n : Nat) : Nat := n % U32

/-- Go `uint32` subtraction `a - b` (wraps around on underflow). -/
def u32sub (a b : Nat) : Nat := (u32 a + (U32 - u32 b)) % U32

/-- Go `uint32` addition `a + b` (wraps around on overflow). -/
def u32add (a b : Nat) : Nat := (u32 a + u32 b) % U32

/-- The encoding flags of a BTF `Int` type (`IsSigned`, `IsChar`, `IsBool`). -/
structure IntEncoding where
  isSigned : Bool
  isChar : Bool
  isBool : Bool
deriving DecidableEq, Repr

/-- One value of a BTF `Enum` type: name and 32-bit signed value. -/
structure EnumValue where
  name : String
  value : Int
deriving DecidableEq, Repr

/-- Linkage of a BTF `Var` (`StaticVar`, `GlobalVar`, `ExternVar`). -/
inductive Linkage where
  | staticVar
  | globalVar
  | externVar
deriving DecidableEq, Repr

mutual
/-- The BTF type graph node, a tagged union over the kinds the formatter
distinguishes; `other` stands for every kind the type switch of
`writeTypeLit` sends to its `default` branch (pointers, functions, ...). -/
inductive Ty where
  | int (size : Nat) (encoding : IntEncoding)
  | enum (values : List EnumValue)
  | typedef (t : Ty)
  | array (t : Ty) (nelems : Nat)
  | struct (size : Nat) (members : List Member)
  | union (size : Nat) (members : List Member)
  | datasec (size : Nat) (vars : List VarSecinfo)
  | var (name : String) (linkage : Linkage) (t : Ty)
  | qual (t : Ty)
  | other (kind : String)

/-- A `Member` of a struct or union: name, type, bit offset, bitfield size. -/
inductive Member where
  | mk (name : String) (type : Ty) (offsetBits : Nat) (bitfieldSize : Nat)

/-- A `VarSecinfo` entry of a `Datasec`: contained type, byte offset, byte size. -/
inductive VarSecinfo where
  | mk (type : Ty) (offset : Nat) (size : Nat)
end

def Member.name : Member → String
  | .mk n _ _ _ => n

def Member.type : Member → Ty
  | .mk _ t _ _ => t

def Member.offsetBits : Member → Nat
  | .mk _ _ ob _ => ob

def Member.bitfieldSize : Member → Nat
  | .mk _ _ _ bs => bs

def VarSecinfo.type : VarSecinfo → Ty
  | .mk t _ _ => t

def VarSecinfo.offset : VarSecinfo → Nat
  | .mk _ o _ => o

def VarSecinfo.size : VarSecinfo → Nat
  | .mk _ _ s => s

def Ty.isVar : Ty → Bool
  | .var _ _ _ => true
  | _ => false

/-- Modelled from the spec: failures are wrapped with positional context
("which field/member/variable index, and which type"); the type graph's own
string rendering (`Type.String`) lives outside the provided source file, so
the "which type" context is rendered as the node's kind name. -/
def tyKindStr : Ty → String
  | .int _ _ => "Int"
  | .enum _ => "Enum"
  | .typedef _ => "Typedef"
  | .array _ _ => "Array"
  | .struct _ _ => "Struct"
  | .union _ _ => "Union"
  | .datasec _ _ => "Datasec"
  | .var _ _ _ => "Var"
  | .qual _ => "Qualifier"
  | .other kind => kind

/-- The structured failures of the formatter (Go `error` values of
`format.go`, compared structurally). -/
inductive FmtError where
  | nestedTooDeep
  | needName (kind : String)
  | notSupported (kind : String)
  | anonymousField (i : Nat)
  | bitfieldNotSupported (i : Nat)
  | unsupportedOffset (i : Nat) (offsetBits : Nat)
  | emptyVarName (i : Nat)
  | sizeofUnsupported (kind : String)
  | field (i : Nat) (e : FmtError)
  | varErr (i : Nat) (e : FmtError)
  | wrapped (kind : String) (e : FmtError)
deriving DecidableEq, Repr

/-- Outcome of a formatter call: success, a returned Go `error`, or a Go
runtime panic (which is not an `error` value). -/
inductive Res (α : Type) where
  | ok (a : α)
  | err (e : FmtError)
  | panicked (msg : String)
deriving DecidableEq, Repr

def Res.isOk {α : Type} : Res α → Bool
  | .ok _ => true
  | _ => false

def Res.isErr {α : Type} : Res α → Bool
  | .err _ => true
  | _ => false

/-- The Go first return value of `TypeDeclaration`: the built string on
success, the empty string when an error is returned. -/
def declString : Res String → String
  | .ok s => s
  | _ => ""

/-- Models `errors.Is`: does `e` or an error it wraps (via `%w`) equal `target`? -/
def errIs : FmtError → FmtError → Bool
  | e, target =>
    if e = target then true
    else
      match e with
      | .field _ e' => errIs e' target
      | .varErr _ e' => errIs e' target
      | .wrapped _ e' => errIs e' target
      | _ => false

/-- Strip every positional wrapper from an error, exposing the root cause. -/
def errBase : FmtError → FmtError
  | .field _ e => errBase e
  | .varErr _ e => errBase e
  | .wrapped _ e => errBase e
  | e => e

/-- Root cause of a failed result, `none` for success or panic. -/
def Res.errBaseOf : Res String → Option FmtError
  | .err e => some (errBase e)
  | _ => none

/-- Modelled from the spec: the fixed maximum nesting bound of literal and
qualifier recursion ("Depth bound"); its defining constant lives outside the
provided source file. -/
def maxTypeDepth : Nat := 32

def skipQualifiersAux : Nat → Ty → Except FmtError Ty
  | 0, _ => .error .nestedTooDeep
  | n + 1, .qual t => skipQualifiersAux n t
  | _ + 1, t => .ok t

/-- Modelled from the spec (§4.1 Qualifier Resolver): repeatedly unwrap
qualifier wrappers until a non-wrapper node is reached, bounded by the same
depth budget as literal traversal; exceeding the bound fails with the
nested-too-deep error.  The function itself lives outside the provided
source file. -/
def skipQualifiers (t : Ty) : Except FmtError Ty :=
  skipQualifiersAux (maxTypeDepth + 1) t

def SizeofAux : Nat → Ty → Except FmtError Nat
  | 0, _ => .error .nestedTooDeep
  | n + 1, t =>
    match t with
    | .int size _ => .ok size
    | .enum _ => .ok 4
    | .struct size _ => .ok size
    | .union size _ => .ok size
    | .datasec size _ => .ok size
    | .typedef t' => SizeofAux n t'
    | .qual t' => SizeofAux n t'
    | .array t' nelems =>
      match SizeofAux n t' with
      | .ok elemSize => .ok (nelems * elemSize)
      | .error e => .error e
    | t' => .error (.sizeofUnsupported (tyKindStr t'))

/-- Modelled from the spec (§4.2 Layout Calculator): `sizeOf(type) ->
byteSize | fails(UnsupportedConstruct)`; sized nodes report their declared
byte size, an enumeration is 4 bytes, typedefs and qualifiers defer to the
underlying type, arrays multiply, with bounded recursion.  The function
itself lives outside the provided source file. -/
def Sizeof (t : Ty) : Except FmtError Nat :=
  SizeofAux maxTypeDepth t

/-- The formatter: the name table and the identifier hook.  The mutable
output buffer (`w strings.Builder`) is threaded explicitly through the
functions below.  The name table keys types by identity in Go; here it is a
total function where the empty string means "absent", exactly the semantics
of a Go map lookup miss. -/
structure GoFormatter where
  names : Ty → String
  Identifier : String → String

/-- `writePadding`: emit an anonymous byte-array filler field when the gap
is positive, nothing otherwise. -/
def writePadding (w : String) (bytes : Nat) : String :=
  if 0 < bytes then w ++ "_ [" ++ toString bytes ++ "]byte; " else w

/-- `writeIntLit`: booleans of size 1 render as `bool`, otherwise a
fixed-width integer named by bit width and signedness. -/
def writeIntLit (w : String) (size : Nat) (enc : IntEncoding) : String :=
  if enc.isBool = true ∧ size = 1 then w ++ "bool"
  else
    if enc.isSigned then w ++ "int" ++ toString ((size * 8) % U32)
    else w ++ "uint" ++ toString ((size * 8) % U32)

/-- Helper for `writeTypeLit`'s trailing error wrap (`"%s: %w"`). -/
def wrapLitErr (kind : String) : Res String → Res String
  | .err e => .err (.wrapped kind e)
  | r => r

mutual
/-- `writeType`: resolve qualifiers, emit the table name if the type is
named, otherwise fall through to the literal. -/
def writeType (gf : GoFormatter) : Nat → Ty → Nat → String → Res String
  | 0, _, _, _ => .panicked "out of fuel"
  | fuel + 1, typ, depth, w =>
    match skipQualifiers typ with
    | .error e => .err e
    | .ok typ =>
      let name := gf.names typ
      if name ≠ "" then .ok (w ++ name)
      else writeTypeLit gf fuel typ depth w
  termination_by structural fuel typ depth w => fuel

/-- `writeTypeLit`: the kind dispatch.  Increments `depth` on entry and
fails with the nested-too-deep error beyond `maxTypeDepth`; wraps a failure
of the dispatched case with the resolved type's context; the `default`
branch of the Go type switch returns the unsupported-kind error directly. -/
def writeTypeLit (gf : GoFormatter) : Nat → Ty → Nat → String → Res String
  | 0, _, _, _ => .panicked "out of fuel"
  | fuel + 1, typ, depth, w =>
    if maxTypeDepth < depth + 1 then .err .nestedTooDeep
    else
      match skipQualifiers typ with
      | .error e => .err e
      | .ok typ =>
        match typ with
        | .int size enc => .ok (writeIntLit w size enc)
        | .enum _ => .ok (w ++ "int32")
        | .typedef t =>
          wrapLitErr (tyKindStr (Ty.typedef t)) (writeType gf fuel t (depth + 1) w)
        | .array t nelems =>
          wrapLitErr (tyKindStr (Ty.array t nelems))
            (writeType gf fuel t (depth + 1) (w ++ "[" ++ toString nelems ++ "]"))
        | .struct size members =>
          wrapLitErr (tyKindStr (Ty.struct size members))
            (writeStructLit gf fuel size members (depth + 1) w)
        | .union size members =>
          match members with
          | [] => .panicked "runtime error: slice bounds out of range [:1] with capacity 0"
          | m :: _ =>
            wrapLitErr (tyKindStr (Ty.union size members))
              (writeStructLit gf fuel size [m] (depth + 1) w)
        | .datasec size vars =>
          wrapLitErr (tyKindStr (Ty.datasec size vars))
            (writeDatasecLit gf fuel size vars (depth + 1) w)
        | typ => .err (.notSupported (tyKindStr typ))
  termination_by structural fuel typ depth w => fuel

/-- `writeStructLit`: open the aggregate and run the member loop. -/
def writeStructLit (gf : GoFormatter) : Nat → Nat → List Member → Nat → String → Res String
  | 0, _, _, _, _ => .panicked "out of fuel"
  | fuel + 1, size, members, depth, w =>
    writeStructFields gf fuel size members 0 0 depth (w ++ "struct \x7b ")
  termination_by structural fuel size members depth w => fuel

/-- The member loop of `writeStructLit`: index `i`, running end offset
`prevOffset`; on exhaustion emit trailing padding and close the aggregate. -/
def writeStructFields (gf : GoFormatter) :
    Nat → Nat → List Member → Nat → Nat → Nat → String → Res String
  | 0, _, _, _, _, _, _ => .panicked "out of fuel"
  | _ + 1, size, [], _, prevOffset, _, w =>
    .ok (writePadding w (u32sub size prevOffset) ++ "\x7d")
  | fuel + 1, size, m :: rest, i, prevOffset, depth, w =>
    if m.name = "" then .err (.anonymousField i)
    else if 0 < m.bitfieldSize then .err (.bitfieldNotSupported i)
    else if u32 m.offsetBits % 8 ≠ 0 then .err (.unsupportedOffset i (u32 m.offsetBits))
    else
      match Sizeof m.type with
      | .error e => .err (.field i e)
      | .ok msize =>
        let offset := u32 m.offsetBits / 8
        let w := writePadding w (u32sub offset prevOffset)
        let prevOffset := u32add offset msize
        let w := w ++ gf.Identifier m.name ++ " "
        match writeType gf fuel m.type depth w with
        | .err e => .err (.field i e)
        | .panicked msg => .panicked msg
        | .ok w => writeStructFields gf fuel size rest (i + 1) prevOffset depth (w ++ "; ")
  termination_by structural fuel size members i prevOffset depth w => fuel

/-- `writeDatasecLit`: open the aggregate and run the variable loop. -/
def writeDatasecLit (gf : GoFormatter) : Nat → Nat → List VarSecinfo → Nat → String → Res String
  | 0, _, _, _, _ => .panicked "out of fuel"
  | fuel + 1, size, vars, depth, w =>
    writeDatasecVars gf fuel size vars 0 0 depth (w ++ "struct \x7b ")
  termination_by structural fuel size vars depth w => fuel

/-- The variable loop of `writeDatasecLit`: the unchecked assertion of each
entry's type to `Var` happens before the linkage check (a non-`Var` entry
panics); non-Global entries are skipped without advancing `prevOffset`. -/
def writeDatasecVars (gf : GoFormatter) :
    Nat → Nat → List VarSecinfo → Nat → Nat → Nat → String → Res String
  | 0, _, _, _, _, _, _ => .panicked "out of fuel"
  | _ + 1, size, [], _, prevOffset, _, w =>
    .ok (writePadding w (u32sub size prevOffset) ++ "\x7d")
  | fuel + 1, size, vsi :: rest, i, prevOffset, depth, w =>
    match vsi.type with
    | .var vname linkage vtyp =>
      if linkage ≠ .globalVar then
        writeDatasecVars gf fuel size rest (i + 1) prevOffset depth w
      else if vname = "" then .err (.emptyVarName i)
      else
        let w := writePadding w (u32sub vsi.offset prevOffset)
        let prevOffset := u32add vsi.offset vsi.size
        let w := w ++ gf.Identifier vname ++ " "
        match writeType gf fuel vtyp depth w with
        | .err e => .err (.varErr i e)
        | .panicked msg => .panicked msg
        | .ok w => writeDatasecVars gf fuel size rest (i + 1) prevOffset depth (w ++ "; ")
    | t =>
      .panicked ("interface conversion: btf.Type is *btf." ++ tyKindStr t ++ ", not *btf.Var")
  termination_by structural fuel size vars i prevOffset depth w => fuel
end

/-- The constant-emission loop of the `Enum` branch of `writeTypeDecl`:
one constant per value, named declaration-name concatenated with the
policy-transformed value name, typed as the declaration name. -/
def writeEnumValues (gf : GoFormatter) (name : String) : List EnumValue → String → String
  | [], w => w
  | ev :: rest, w =>
    writeEnumValues gf name rest
      (w ++ name ++ gf.Identifier ev.name ++ " " ++ name ++ " = " ++ toString ev.value ++ "; ")

/-- `writeTypeDecl`: fail on an empty declaration name, resolve qualifiers,
special-case enumerations (alias plus constant block), otherwise emit
`type <name> ` followed by the literal at depth 0. -/
def writeTypeDecl (gf : GoFormatter) (fuel : Nat) (name : String) (typ : Ty) (w : String) :
    Res String :=
  if name = "" then .err (.needName (tyKindStr typ))
  else
    match skipQualifiers typ with
    | .error e => .err e
    | .ok typ =>
      match typ with
      | .enum values =>
        let w := w ++ "type " ++ name ++ " int32"
        match values with
        | [] => .ok w
        | _ :: _ => .ok (writeEnumValues gf name values (w ++ "; const ( ") ++ ")")
      | typ => writeTypeLit gf fuel typ 0 (w ++ "type " ++ name ++ " ")

/-- Fuel budget of a top-level call; far larger than the recursion the
depth guard `maxTypeDepth` admits, so fuel exhaustion is unreachable. -/
def fmtFuel : Nat := 1000

/-- `TypeDeclaration`, the public entry point.  `prevBuf` is the content the
mutable builder `gf.w` holds from any previous call; `gf.w.Reset()` discards
it before writing, so the result is built from the empty buffer.  On error
the Go function returns the empty string together with the error
(`declString` projects that first return value). -/
def TypeDeclaration (gf : GoFormatter) (prevBuf : String) (name : String) (typ : Ty) :
    Res String :=
  writeTypeDecl gf fmtFuel name typ ""

/-- A formatter with an empty name table and the default identity
identifier hook (`NewGoFormatter` with an empty map). -/
def gfEmpty : GoFormatter where
  names := fun _ => ""
  Identifier := fun s => s

/-- A formatter whose name table names the zero-valued enumeration `E`
(and nothing else), with the default identity identifier hook. -/
def gfE : GoFormatter where
  names := fun t => match t with | .enum [] => "E" | _ => ""
  Identifier := fun s => s

/-- A 4-byte unsigned BTF integer. -/
def uint32Ty : Ty := .int 4 ⟨false, false, false⟩

/-- `k` nested one-element BTF arrays around a 4-byte unsigned integer:
the literal emitter recurses once per level. -/
def nestedArr : Nat → Ty
  | 0 => uint32Ty
  | k + 1 => .array (nestedArr k) 1

/-- Is this error an unsupported-construct failure (as opposed to the
depth-guard failure)? -/
def FmtError.isUnsupportedKind : FmtError → Bool
  | .notSupported _ => true
  | .sizeofUnsupported _ => true
  | _ => false

theorem join_cons (s : String) (l : List String) :
    String.join (s :: l) = s ++ String.join l := by
  apply String.ext
  simp [String.data_join]

/-- The constant loop equals the declarative join of the per-value
constant strings, in declared order. -/
theorem writeEnumValues_eq (gf : GoFormatter) (name : String) :
    ∀ (l : List EnumValue) (w : String),
      writeEnumValues gf name l w =
        w ++ String.join (l.map fun ev =>
          name ++ gf.Identifier ev.name ++ " " ++ name ++ " = " ++ toString ev.value ++ "; ")
  | [], w => by simp [writeEnumValues, String.join, String.append_empty]
  | ev :: rest, w => by
    rw [writeEnumValues, writeEnumValues_eq gf name rest, List.map_cons, join_cons]
    simp [String.append_assoc]

/-- Claim C1, counterexample: a structure whose second member's byte offset
(0) is smaller than the end offset of the previously emitted member (4) does
NOT make emission fail; the `uint32` gap `offset - prevOffset` wraps around
and a 4294967292-byte padding field is silently emitted, and the call
succeeds. -/
theorem C1_counterexample :
    TypeDeclaration gfEmpty "" "Foo"
        (.struct 8 [.mk "a" uint32Ty 0 0, .mk "b" uint32Ty 0 0]) =
      .ok "type Foo struct \x7b a uint32; _ [4294967292]byte; b uint32; _ [4]byte; \x7d" := by
  rfl

/-- Claim C1, amended: when a member's byte offset `off` is smaller than the
running end offset `prev` (an overlap), the emitted gap is the wrapped
`uint32` difference `off + 2^32 - prev`, which is positive, so `writePadding`
emits a padding field of that wrapped size instead of failing; the same
wrap-around governs the trailing gap, as the concrete declaration of a
size-2 structure whose single member ends at byte 4 shows. -/
theorem C1_overlap_wraps (off prev : Nat) (w : String) (h : u32 off < u32 prev) :
    0 < u32sub off prev ∧
    u32sub off prev = u32 off + (U32 - u32 prev) ∧
    writePadding w (u32sub off prev) =
      w ++ "_ [" ++ toString (u32sub off prev) ++ "]byte; " ∧
    TypeDeclaration gfEmpty "" "Bar" (.struct 2 [.mk "a" uint32Ty 0 0]) =
      .ok "type Bar struct \x7b a uint32; _ [4294967294]byte; \x7d" := by
  have hprev : u32 prev < U32 := Nat.mod_lt _ (by norm_num [U32])
  have hlt : u32 off + (U32 - u32 prev) < U32 := by omega
  have heq : u32sub off prev = u32 off + (U32 - u32 prev) := by
    unfold u32sub
    exact Nat.mod_eq_of_lt hlt
  have hpos : 0 < u32sub off prev := by omega
  refine ⟨hpos, heq, ?_, by rfl⟩
  unfold writePadding
  rw [if_pos hpos]

/-- Witness for C1_overlap_wraps at the concrete overlap `off = 0`,
`prev = 4`. -/
theorem C1_overlap_wraps_witness :
    0 < u32sub 0 4 ∧
    u32sub 0 4 = u32 0 + (U32 - u32 4) ∧
    writePadding "" (u32sub 0 4) = "" ++ "_ [" ++ toString (u32sub 0 4) ++ "]byte; " ∧
    TypeDeclaration gfEmpty "" "Bar" (.struct 2 [.mk "a" uint32Ty 0 0]) =
      .ok "type Bar struct \x7b a uint32; _ [4294967294]byte; \x7d" :=
  C1_overlap_wraps 0 4 "" (by decide)

/-- Claim C2, counterexample: an Enumeration present in the name table
(here the zero-valued enumeration named `E`) is rendered as its bare name,
not as `int32`, when it appears as a member type: `writeType` consults the
name table before dispatching to `writeTypeLit`. -/
theorem C2_counterexample :
    TypeDeclaration gfE "" "S" (.struct 4 [.mk "x" (.enum []) 0 0]) =
      .ok "type S struct \x7b x E; \x7d" := by
  rfl

/-- Claim C2, amended: `writeTypeLit` itself always renders an Enumeration
as the literal `int32`; but `writeType` first looks the (qualifier-resolved)
type up in the name table and a hit short-circuits to the bare name, so
during literal emission an Enumeration renders as `int32` exactly when it is
absent from the name table, and as its table name otherwise. -/
theorem C2_enum_rendering (gf : GoFormatter) (n d : Nat) (vals : List EnumValue)
    (w : String) (h : d + 1 ≤ maxTypeDepth) :
    writeType gf (n + 1 + 1) (.enum vals) d w =
      (if gf.names (.enum vals) = "" then .ok (w ++ "int32")
       else .ok (w ++ gf.names (.enum vals))) := by
  show (if gf.names (.enum vals) ≠ "" then Res.ok (w ++ gf.names (.enum vals))
        else writeTypeLit gf (n + 1) (.enum vals) d w) = _
  by_cases hn : gf.names (.enum vals) = ""
  · rw [if_neg (fun h' => h' hn), if_pos hn]
    show (if maxTypeDepth < d + 1 then Res.err .nestedTooDeep else Res.ok (w ++ "int32")) = _
    rw [if_neg (by omega)]
  · rw [if_pos hn, if_neg hn]

/-- Witness for C2_enum_rendering: the named enumeration of `gfE` renders
as `E`, its table name. -/
theorem C2_enum_rendering_witness :
    writeType gfE 2 (.enum []) 0 "" = .ok "E" :=
  (C2_enum_rendering gfE 0 0 [] "" (by decide)).trans (by rfl)

/-- Claim C3: rendering a Union literal depends only on the first member
and the declared size; the tail of the member sequence never influences the
result (output or error), for any formatter, fuel, depth and buffer. -/
theorem C3_union_first_member_only (gf : GoFormatter) (n size : Nat) (m : Member)
    (rest rest' : List Member) (d : Nat) (w : String) :
    writeTypeLit gf n (.union size (m :: rest)) d w =
      writeTypeLit gf n (.union size (m :: rest')) d w := by
  cases n with
  | zero => rfl
  | succ k => rfl

/-- Claim C4: a data-section entry whose linkage is not Global is silently
skipped — the loop continues with only the index advanced, leaving the
buffer and the running offset `prev` untouched (so padding is computed
between consecutively emitted entries exactly as if the skipped entry were
absent), and this holds even when the skipped entry's name is empty; by
contrast a Global entry with an empty name fails with the
empty-variable-name error carrying the entry's index. -/
theorem C4_datasec_skip_nonglobal (gf : GoFormatter) (n size : Nat) (vname : String)
    (lk : Linkage) (vt : Ty) (off vsz : Nat) (rest : List VarSecinfo)
    (i prev d : Nat) (w : String) (h : lk ≠ .globalVar) :
    writeDatasecVars gf (n + 1) size (.mk (.var vname lk vt) off vsz :: rest) i prev d w =
      writeDatasecVars gf n size rest (i + 1) prev d w ∧
    writeDatasecVars gf (n + 1) size (.mk (.var "" .globalVar vt) off vsz :: rest) i prev d w =
      .err (.emptyVarName i) := by
  constructor
  · show (if lk ≠ Linkage.globalVar
          then writeDatasecVars gf n size rest (i + 1) prev d w
          else _) = _
    rw [if_pos h]
  · rfl

/-- Witness for C4_datasec_skip_nonglobal: a Static entry named `y` (and
one with an empty name) at concrete arguments. -/
theorem C4_datasec_skip_nonglobal_witness :
    writeDatasecVars gfEmpty (5 + 1) 8 (.mk (.var "y" .staticVar uint32Ty) 0 4 :: []) 0 0 1 "" =
      writeDatasecVars gfEmpty 5 8 [] (0 + 1) 0 1 "" ∧
    writeDatasecVars gfEmpty (5 + 1) 8 (.mk (.var "" .globalVar uint32Ty) 0 4 :: []) 0 0 1 "" =
      .err (.emptyVarName 0) :=
  C4_datasec_skip_nonglobal gfEmpty 5 8 "y" .staticVar uint32Ty 0 4 [] 0 0 1 "" (by decide)

/-- Claim C5: a declaration whose type resolves through qualifier stripping
to an Enumeration emits the alias `type <name> int32`; with zero values
that is the whole output, otherwise a constant block follows with exactly
one constant per value in declared order, named by concatenating the
declaration name with the policy-transformed value name, typed as the
declaration name, assigned the value's integer. -/
theorem C5_enum_declaration (gf : GoFormatter) (prevBuf name : String) (typ : Ty)
    (vals : List EnumValue) (hname : name ≠ "")
    (hskip : skipQualifiers typ = .ok (.enum vals)) :
    TypeDeclaration gf prevBuf name typ =
      .ok ("type " ++ name ++ " int32" ++
        (if vals.isEmpty then ""
         else "; const ( " ++
           String.join (vals.map fun ev =>
             name ++ gf.Identifier ev.name ++ " " ++ name ++ " = " ++
               toString ev.value ++ "; ") ++ ")")) := by
  unfold TypeDeclaration writeTypeDecl
  rw [if_neg hname, hskip]
  cases vals with
  | nil =>
    simp [String.empty_append, String.append_empty]
  | cons ev rest =>
    show Res.ok (writeEnumValues gf name (ev :: rest)
        ("" ++ "type " ++ name ++ " int32" ++ "; const ( ") ++ ")") = _
    rw [writeEnumValues_eq]
    simp [String.empty_append, String.append_assoc]
    rw [show (" int32; const ( " : String) = " int32" ++ "; const ( " from rfl,
      String.append_assoc]

/-- Witness for C5_enum_declaration: a qualifier-wrapped two-value
enumeration declared as `Color`. -/
theorem C5_enum_declaration_witness :
    TypeDeclaration gfEmpty "" "Color"
        (.qual (.enum [⟨"RED", 0⟩, ⟨"BLUE", 1⟩])) =
      .ok "type Color int32; const ( ColorRED Color = 0; ColorBLUE Color = 1; )" :=
  (C5_enum_declaration gfEmpty "" "Color" (.qual (.enum [⟨"RED", 0⟩, ⟨"BLUE", 1⟩]))
    [⟨"RED", 0⟩, ⟨"BLUE", 1⟩] (by decide) (by rfl)).trans (by rfl)

/-- Claim C6: a member with an empty name makes the member loop fail with
the anonymous-field error carrying that member's index, and a whole
declaration over such a structure fails with that error (wrapped in the
structure's context) while returning no output text at all: the Go call
returns the empty string, not the partial literal built so far. -/
theorem C6_anonymous_field (gf : GoFormatter) (n size i prev d : Nat) (m : Member)
    (rest : List Member) (w prevBuf name : String) (sz : Nat)
    (hm : m.name = "") (hname : name ≠ "") :
    writeStructFields gf (n + 1) size (m :: rest) i prev d w = .err (.anonymousField i) ∧
    TypeDeclaration gf prevBuf name (.struct sz (m :: rest)) =
      .err (.wrapped "Struct" (.anonymousField 0)) ∧
    declString (TypeDeclaration gf prevBuf name (.struct sz (m :: rest))) = "" := by
  cases m with
  | mk nm t ob bs =>
    simp only [Member.name] at hm
    subst hm
    have h2 : TypeDeclaration gf prevBuf name (.struct sz (.mk "" t ob bs :: rest)) =
        .err (.wrapped "Struct" (.anonymousField 0)) := by
      unfold TypeDeclaration writeTypeDecl
      rw [if_neg hname]
      rfl
    exact ⟨by rfl, h2, by rw [h2]; rfl⟩

/-- Witness for C6_anonymous_field at a concrete anonymous member (loop
index 7 for the loop-level part, a one-member struct at top level). -/
theorem C6_anonymous_field_witness :
    writeStructFields gfEmpty (5 + 1) 4 (.mk "" uint32Ty 0 0 :: []) 7 0 1 "" =
      .err (.anonymousField 7) ∧
    TypeDeclaration gfEmpty "" "S2" (.struct 4 (.mk "" uint32Ty 0 0 :: [])) =
      .err (.wrapped "Struct" (.anonymousField 0)) ∧
    declString (TypeDeclaration gfEmpty "" "S2" (.struct 4 (.mk "" uint32Ty 0 0 :: []))) = "" :=
  C6_anonymous_field gfEmpty 5 4 7 0 1 (.mk "" uint32Ty 0 0) [] "" "" "S2" 4 (by rfl) (by decide)

/-- Claim C7: literal emission fails with the nested-too-deep error as soon
as the incremented depth exceeds `maxTypeDepth` (for any type, formatter and
buffer), and the bound is exact: 31 nested arrays — whose innermost literal
is entered at incremented depth exactly `maxTypeDepth = 32` — succeed, while
32 nested arrays (one level beyond) fail with a root cause of
`nestedTooDeep`, which is not an unsupported-construct error. -/
theorem C7_depth_bound (gf : GoFormatter) (n d : Nat) (t : Ty) (w : String)
    (h : maxTypeDepth < d + 1) :
    writeTypeLit gf (n + 1) t d w = .err .nestedTooDeep ∧
    (TypeDeclaration gfEmpty "" "A" (nestedArr 31)).isOk = true ∧
    (TypeDeclaration gfEmpty "" "A" (nestedArr 32)).errBaseOf = some .nestedTooDeep ∧
    ((TypeDeclaration gfEmpty "" "A" (nestedArr 32)).errBaseOf.map
        FmtError.isUnsupportedKind) = some false := by
  refine ⟨?_, by rfl, by rfl, by rfl⟩
  show (if maxTypeDepth < d + 1 then Res.err .nestedTooDeep else _) = _
  rw [if_pos h]

/-- Witness for C7_depth_bound: one level beyond the bound (depth 32) at a
concrete integer type. -/
theorem C7_depth_bound_witness :
    writeTypeLit gfEmpty (5 + 1) uint32Ty 32 "" = .err .nestedTooDeep ∧
    (TypeDeclaration gfEmpty "" "A" (nestedArr 31)).isOk = true ∧
    (TypeDeclaration gfEmpty "" "A" (nestedArr 32)).errBaseOf = some .nestedTooDeep ∧
    ((TypeDeclaration gfEmpty "" "A" (nestedArr 32)).errBaseOf.map
        FmtError.isUnsupportedKind) = some false :=
  C7_depth_bound gfEmpty 5 32 uint32Ty "" (by decide)

/-- Claim C8: `TypeDeclaration` is deterministic and resets the mutable
builder on entry, so its result does not depend on what the builder holds
from a previous call: two calls with identical arguments agree whatever the
prior buffer contents, and a repeated call — whose prior buffer is whatever
the first call left as its returned string — reproduces the first result. -/
theorem C8_deterministic_reset (gf : GoFormatter) (buf buf' name : String) (typ : Ty) :
    TypeDeclaration gf buf name typ = TypeDeclaration gf buf' name typ ∧
    TypeDeclaration gf (declString (TypeDeclaration gf buf name typ)) name typ =
      TypeDeclaration gf buf name typ :=
  ⟨rfl, rfl⟩

/-- Claim C9: rendering a Union with an empty member sequence panics (the
Go slice expression `v.Members[:1]` is out of bounds) instead of returning a
typed error, for every formatter, prior buffer and declaration name:
non-emptiness of rendered unions is an unstated precondition of
`TypeDeclaration`. -/
theorem C9_empty_union_panics (gf : GoFormatter) (prevBuf name : String) (sz : Nat)
    (hname : name ≠ "") :
    TypeDeclaration gf prevBuf name (.union sz []) =
      .panicked "runtime error: slice bounds out of range [:1] with capacity 0" := by
  unfold TypeDeclaration writeTypeDecl
  rw [if_neg hname]
  rfl

/-- Witness for C9_empty_union_panics at a concrete empty union. -/
theorem C9_empty_union_panics_witness :
    TypeDeclaration gfEmpty "" "U" (.union 4 []) =
      .panicked "runtime error: slice bounds out of range [:1] with capacity 0" :=
  C9_empty_union_panics gfEmpty "" "U" 4 (by decide)

/-- Claim C10: every data-section entry's contained type is asserted to be
a `Var` before the linkage check, so an entry of any other kind makes the
whole declaration panic (an interface-conversion runtime panic naming the
offending kind) rather than return a typed error — even for an entry that
the linkage check would have skipped, since that check is never reached. -/
theorem C10_datasec_nonvar_panics (gf : GoFormatter) (prevBuf name : String)
    (dsz off vsz : Nat) (t : Ty) (rest : List VarSecinfo)
    (hname : name ≠ "") (ht : t.isVar = false) :
    TypeDeclaration gf prevBuf name (.datasec dsz (.mk t off vsz :: rest)) =
      .panicked ("interface conversion: btf.Type is *btf." ++ tyKindStr t ++
        ", not *btf.Var") := by
  cases t
  case var a b c => simp [Ty.isVar] at ht
  all_goals
    unfold TypeDeclaration writeTypeDecl
    rw [if_neg hname]
    rfl

/-- Witness for C10_datasec_nonvar_panics: a section whose single entry
contains a plain integer type. -/
theorem C10_datasec_nonvar_panics_witness :
    TypeDeclaration gfEmpty "" "D" (.datasec 4 (.mk uint32Ty 0 4 :: [])) =
      .panicked "interface conversion: btf.Type is *btf.Int, not *btf.Var" :=
  (C10_datasec_nonvar_panics gfEmpty "" "D" 4 0 4 uint32Ty [] (by decide) (by rfl)).trans
    (by rfl)
